import Mathlib

/-!
Shallow embedding of the deno core embedding layer (src/core/libdeno.rs).

The Rust file drives the V8 engine through FFI. The embedding models the
DenoIsolate state (the fields the verified claims touch) as a Lean
structure, and each Rust function as a pure Lean function over that
state. Engine-owned behaviour that the Rust file merely invokes
(v8::Exception::CreateMessage, the host receive callback, the JS recv
function, module compilation, module instantiation driving the resolver)
is passed in as an explicit function parameter, so every theorem is
quantified over the engine/host behaviour.

Raw pointers are modelled as Nat with 0 playing the role of the null
pointer. Rust assert! / unwrap panics are modelled with Except Panic.
-/

/-- A JavaScript value, at the granularity the Rust code inspects it:
the code only asks is_null_or_undefined and builds string and Error
values. -/
inductive JsValue where
  | nullv
  | undefinedv
  | str (s : String)
  | errorObj (message : JsValue)
  | obj (tag : Nat)
deriving DecidableEq

/-- Models v8 Value::IsNullOrUndefined. -/
def JsValue.isNullOrUndefined : JsValue → Bool
  | .nullv => true
  | .undefinedv => true
  | _ => false

/-- Models one v8::StackFrame as read by encode_message_as_object:
get_line_number, get_column, get_function_name (may be absent),
get_script_name_or_source_url (may be absent), is_eval, is_constructor,
is_wasm. -/
structure StackFrame where
  lineNumber : Int
  column : Int
  functionName : Option String
  scriptNameOrSourceUrl : Option String
  isEval : Bool
  isConstructor : Bool
  isWasm : Bool
deriving DecidableEq

/-- Models a v8::Message as read by encode_message_as_object: the
stringified exception (message.get), script resource name, source line,
line number, start/end position, error level, start/end column, the two
origin booleans, and the optional stack trace. -/
structure V8Message where
  text : String
  scriptResourceName : String
  sourceLine : String
  lineNumber : Int
  startPosition : Int
  endPosition : Int
  errorLevel : Int
  startColumn : Int
  endColumn : Int
  isSharedCrossOrigin : Bool
  isOpaque : Bool
  stackTrace : Option (List StackFrame)
deriving DecidableEq

/-- A JSON value, modelling the v8 object built by
encode_message_as_object. An object is its ordered field list. -/
inductive JVal where
  | jstr (s : String)
  | jint (n : Int)
  | jbool (b : Bool)
  | jarr (xs : List JVal)
  | jobj (fields : List (String × JVal))

/-- Models v8::json::stringify on the values the encoder builds. -/
def JVal.render : JVal → String
  | JVal.jstr s => "\x22" ++ s ++ "\x22"
  | JVal.jint n => toString n
  | JVal.jbool true => "true"
  | JVal.jbool false => "false"
  | JVal.jarr xs =>
      "[" ++ String.intercalate "," (xs.attach.map (fun x => JVal.render x.1)) ++ "]"
  | JVal.jobj fs =>
      "\x7b" ++
        String.intercalate ","
          (fs.attach.map (fun f => "\x22" ++ f.1.1 ++ "\x22:" ++ JVal.render f.1.2)) ++
      "\x7d"
decreasing_by
  all_goals simp_wf
  · have h1 := List.sizeOf_lt_of_mem x.2
    omega
  · have h1 := List.sizeOf_lt_of_mem f.2
    have h2 : sizeOf f.1.2 < sizeOf f.1 := by
      obtain ⟨a, b⟩ := f.1
      simp
      try omega
    omega

/-- Encodes one stack frame, following the source order of property
sets in encode_message_as_object: line, column, functionName (only when
the frame has one), scriptName (falling back to the <unknown> string),
isEval, isConstructor, isWasm. -/
def encode_stack_frame (f : StackFrame) : List (String × JVal) :=
  [("line", JVal.jint f.lineNumber), ("column", JVal.jint f.column)]
  ++ (match f.functionName with
      | some fn => [("functionName", JVal.jstr fn)]
      | none => [])
  ++ [("scriptName", JVal.jstr (f.scriptNameOrSourceUrl.getD "<unknown>")),
      ("isEval", JVal.jbool f.isEval),
      ("isConstructor", JVal.jbool f.isConstructor),
      ("isWasm", JVal.jbool f.isWasm)]

/-- The frames property of the encoded message: when a stack trace
exists, one encoded frame per stack frame; otherwise a single synthetic
frame holding scriptResourceName, the message line number and the start
column. -/
def encode_frames (m : V8Message) : JVal :=
  match m.stackTrace with
  | some frames => JVal.jarr (frames.map (fun f => JVal.jobj (encode_stack_frame f)))
  | none =>
      JVal.jarr [JVal.jobj
        [("scriptResourceName", JVal.jstr m.scriptResourceName),
         ("line", JVal.jint m.lineNumber),
         ("column", JVal.jint m.startColumn)]]

/-- Embeds DenoIsolate::encode_message_as_object: the canonical JSON
object for an engine message, with fields set in source order. -/
def encode_message_as_object (m : V8Message) : List (String × JVal) :=
  [("message", JVal.jstr m.text),
   ("scriptResourceName", JVal.jstr m.scriptResourceName),
   ("sourceLine", JVal.jstr m.sourceLine),
   ("lineNumber", JVal.jint m.lineNumber),
   ("startPosition", JVal.jint m.startPosition),
   ("endPosition", JVal.jint m.endPosition),
   ("errorLevel", JVal.jint m.errorLevel),
   ("startColumn", JVal.jint m.startColumn),
   ("endColumn", JVal.jint m.endColumn),
   ("isSharedCrossOrigin", JVal.jbool m.isSharedCrossOrigin),
   ("isOpaque", JVal.jbool m.isOpaque),
   ("frames", encode_frames m)]

/-- Embeds DenoIsolate::encode_message_as_json: stringify the encoded
object. -/
def encode_message_as_json (m : V8Message) : String :=
  JVal.render (JVal.jobj (encode_message_as_object m))

/-- Embeds DenoIsolate::encode_exception_as_json. The engine call
v8::create_message is the parameter cm. -/
def encode_exception_as_json (cm : JsValue → V8Message) (exc : JsValue) : String :=
  encode_message_as_json (cm exc)

/-- Embeds deno_buf, the borrowed (pointer, length) slice. ptrNull
models data_ptr being the null pointer; bytes models the pointed-to
memory, so data_len is bytes.length. -/
structure deno_buf where
  ptrNull : Bool
  bytes : List Nat
deriving DecidableEq

/-- Embeds deno_buf::data_len. -/
def deno_buf.dataLen (b : deno_buf) : Nat := b.bytes.length

/-- Embeds deno_buf::empty: null pointer, zero length. -/
def deno_buf.emptyBuf : deno_buf := { ptrNull := true, bytes := [] }

/-- Embeds deno_import_buf: for a null pointer a zero length
Uint8Array is produced, otherwise a fresh ArrayBuffer is allocated and
the bytes are copied into it. The result models the Uint8Array byte
content. -/
def deno_import_buf (buf : deno_buf) : List Nat :=
  if buf.ptrNull then [] else buf.bytes

/-- Embeds the Rust cast `op_id as i32`: reinterpret an unsigned 32 bit
value as a signed 32 bit value (two_s complement wraparound). -/
def toI32 (n : Nat) : Int :=
  if n % 2 ^ 32 < 2 ^ 31 then ((n % 2 ^ 32 : Nat) : Int)
  else ((n % 2 ^ 32 : Nat) : Int) - 2 ^ 32

/-- An argument passed from the bridge to the JS recv function. -/
inductive JsArg where
  | int (i : Int)
  | u8array (bytes : List Nat)
deriving DecidableEq

/-- Module status as reported by v8::Module::get_status. -/
inductive ModuleStatus where
  | uninstantiated
  | instantiating
  | instantiated
  | evaluating
  | evaluated
  | errored
deriving DecidableEq

/-- Models a compiled v8::Module handle as the Rust code reads it:
identity hash, the ordered module requests (import specifiers in source
order), and the status. -/
structure V8Module where
  identityHash : Int
  requests : List String
  status : ModuleStatus
deriving DecidableEq

/-- Embeds the Rust struct ModuleInfo. -/
structure ModuleInfo where
  main : Bool
  name : String
  handle : V8Module
  import_specifiers : List String
deriving DecidableEq

/-- Embeds the claim relevant fields of the Rust struct DenoIsolate.
currentArgs models whether the raw pointer current_args_ is non null;
sendReturnValue models the return value slot of the
FunctionCallbackInfo that current_args_ points at; userData models the
user_data_ pointer (0 is null); recvRegistered models whether the
persistent recv_ function handle is non empty; terminating models
whether the engine is in execution terminating state; resolveCb is the
resolve_cb_ field. lastException is last_exception_, mods is mods_ as
an association list with HashMap style insert or replace, modsByName is
mods_by_name_. -/
structure DenoIsolateState where
  lastException : Option String
  mods : List (Int × ModuleInfo)
  modsByName : List (String × Int)
  resolveCb : Option (Nat → String → Int → Int)
  recvRegistered : Bool
  userData : Nat
  currentArgs : Bool
  sendReturnValue : Option (List Nat)
  terminating : Bool

/-- The Rust panics (assert! and unwrap failures) the embedding can
reach. -/
inductive Panic where
  | currentArgsNotNull
  | userDataScopeNew
  | userDataScopeDrop
  | resolveCbNotNull
deriving DecidableEq

/-- Embeds UserDataScope::new: asserts the stored user_data_ is null or
already equals the new value, records the previous value and writes the
new one. Returns the updated state together with the recorded previous
value. -/
def userDataScopeNew (st : DenoIsolateState) (data : Nat) :
    Except Panic (DenoIsolateState × Nat) :=
  if st.userData = 0 ∨ st.userData = data then
    Except.ok ({ st with userData := data }, st.userData)
  else Except.error Panic.userDataScopeNew

/-- Embeds the Drop impl of UserDataScope: asserts user_data_ still
equals the value the scope wrote, then restores the previous value. -/
def userDataScopeDrop (st : DenoIsolateState) (data prev : Nat) :
    Except Panic DenoIsolateState :=
  if st.userData = data then Except.ok { st with userData := prev }
  else Except.error Panic.userDataScopeDrop

/-- Embeds DenoIsolate::handle_exception. When the isolate is in
execution terminating state, the handler cancels termination, replaces
a null or undefined exception with an Error built from the string
"execution terminated", re-enters itself recursively, and re-raises
termination. Otherwise it encodes the exception as JSON and stores it
in last_exception_. cm models v8::create_message. -/
def handle_exception (cm : JsValue → V8Message) (st : DenoIsolateState)
    (exc : JsValue) : DenoIsolateState :=
  if h : st.terminating then
    let exc2 := if exc.isNullOrUndefined then
        JsValue.errorObj (JsValue.str "execution terminated")
      else exc
    let st1 := handle_exception cm { st with terminating := false } exc2
    { st1 with terminating := true }
  else
    { st with lastException := some (encode_exception_as_json cm exc) }
termination_by (if st.terminating then 1 else 0)
decreasing_by simp [h]

/-- Embeds v8::ScriptOrigin as built by script_origin / module_origin. -/
structure ScriptOrigin where
  resourceName : String
  resourceLineOffset : Int
  resourceColumnOffset : Int
  resourceIsSharedCrossOrigin : Bool
  scriptId : Int
  sourceMapUrl : String
  resourceIsOpaque : Bool
  isWasm : Bool
  isModule : Bool
deriving DecidableEq

/-- Embeds the free function script_origin. -/
def script_origin (resourceName : String) : ScriptOrigin :=
  { resourceName := resourceName
    resourceLineOffset := 0
    resourceColumnOffset := 0
    resourceIsSharedCrossOrigin := false
    scriptId := 123
    sourceMapUrl := "source_map_url"
    resourceIsOpaque := true
    isWasm := false
    isModule := false }

/-- Embeds the free function module_origin: identical to script_origin
except that is_module is new_true. -/
def module_origin (resourceName : String) : ScriptOrigin :=
  { resourceName := resourceName
    resourceLineOffset := 0
    resourceColumnOffset := 0
    resourceIsSharedCrossOrigin := false
    scriptId := 123
    sourceMapUrl := "source_map_url"
    resourceIsOpaque := true
    isWasm := false
    isModule := true }

/-- HashMap::insert on an association list: replaces any binding of the
key. -/
def assocInsertMod (m : List (Int × ModuleInfo)) (k : Int) (v : ModuleInfo) :
    List (Int × ModuleInfo) :=
  (k, v) :: m.filter (fun kv => kv.1 ≠ k)

/-- HashMap::insert for mods_by_name_. -/
def assocInsertName (m : List (String × Int)) (k : String) (v : Int) :
    List (String × Int) :=
  (k, v) :: m.filter (fun kv => kv.1 ≠ k)

/-- Embeds DenoIsolate::get_module_info: id 0 is never resolvable, any
other id is looked up in mods_. -/
def get_module_info (st : DenoIsolateState) (id : Int) : Option ModuleInfo :=
  if id = 0 then none else st.mods.lookup id

/-- Embeds DenoIsolate::register_module. The engine compilation
v8::script_compiler::compile_module is the parameter compile, applied
to the origin built by module_origin and the source; a caught
compilation exception goes through handle_exception and 0 is returned.
On success the module identity hash becomes the id and the module
requests are recorded in order as import_specifiers. -/
def register_module (compile : ScriptOrigin → String → Except JsValue V8Module)
    (cm : JsValue → V8Message) (st : DenoIsolateState) (main : Bool)
    (name source : String) : DenoIsolateState × Int :=
  match compile (module_origin name) source with
  | Except.error exc => (handle_exception cm st exc, 0)
  | Except.ok m =>
      let id := m.identityHash
      let info : ModuleInfo :=
        { main := main, name := name, handle := m,
          import_specifiers := m.requests }
      ({ st with
          mods := assocInsertMod st.mods id info
          modsByName := assocInsertName st.modsByName name id }, id)

/-- Embeds deno_mod_new, which forwards to register_module. -/
def deno_mod_new (compile : ScriptOrigin → String → Except JsValue V8Module)
    (cm : JsValue → V8Message) (st : DenoIsolateState) (main : Bool)
    (name source : String) : DenoIsolateState × Int :=
  register_module compile cm st main name source

/-- Embeds deno_mod_imports_len. The unwrap panic on an unknown id is
modelled as none. -/
def deno_mod_imports_len (st : DenoIsolateState) (id : Int) : Option Nat :=
  (get_module_info st id).map (fun info => info.import_specifiers.length)

/-- Embeds deno_mod_imports_get. -/
def deno_mod_imports_get (st : DenoIsolateState) (id : Int) (index : Nat) :
    Option String :=
  match get_module_info st id with
  | some info => info.import_specifiers.get? index
  | none => none

/-- The entry half of the send bridge: the call info pointer is
recorded in current_args_ (a fresh callback frame, so its return value
slot is empty). -/
def send_prologue (st : DenoIsolateState) : DenoIsolateState :=
  { st with currentArgs := true, sendReturnValue := none }

/-- The exit half of the send bridge: if current_args_ is still non
null after the host callback returned, the op is asynchronous and the
slot is cleared; otherwise a synchronous deno_respond already consumed
it. -/
def send_epilogue (st : DenoIsolateState) : DenoIsolateState :=
  if st.currentArgs then { st with currentArgs := false } else st

/-- Embeds the extern fn send (the body after argument extraction):
asserts current_args_ is null, records the call info, invokes the host
receive callback recv_cb_ (the parameter recvCb, receiving user_data_,
op_id, control and zero_copy), then runs the epilogue. -/
def send (recvCb : Nat → Nat → deno_buf → Option (List Nat) →
      DenoIsolateState → DenoIsolateState)
    (st : DenoIsolateState) (op_id : Nat) (control : deno_buf)
    (zero_copy : Option (List Nat)) : Except Panic DenoIsolateState :=
  if st.currentArgs then Except.error Panic.currentArgsNotNull
  else
    let st1 := send_prologue st
    let st2 := recvCb st1.userData op_id control zero_copy st1
    Except.ok (send_epilogue st2)

/-- The argument vector handed to the JS recv function by the
asynchronous branch of deno_respond: empty when the buffer pointer is
null, otherwise the op id reinterpreted as i32 followed by the imported
buffer. -/
def respond_args (op_id : Nat) (buf : deno_buf) : List JsArg :=
  if buf.ptrNull then []
  else [JsArg.int (toI32 op_id), JsArg.u8array (deno_import_buf buf)]

/-- Embeds deno_respond. When current_args_ is non null the response is
synchronous: a buffer with non null pointer and positive length is
imported and set as the return value of the in-flight send (op_id and
user_data unused), and current_args_ is cleared in every case.
Otherwise the response is asynchronous: inside a UserDataScope bound to
user_data, the registered JS recv function is required (else the
missing-recv string becomes the last exception), and is called (the
parameter recvImpl, modelling the engine call of the JS function on the
context global) with respond_args; a thrown exception goes through
handle_exception. -/
def deno_respond (cm : JsValue → V8Message)
    (recvImpl : List JsArg → DenoIsolateState → DenoIsolateState × Option JsValue)
    (st : DenoIsolateState) (user_data : Nat) (op_id : Nat) (buf : deno_buf) :
    Except Panic DenoIsolateState :=
  if st.currentArgs then
    Except.ok
      { st with
          sendReturnValue :=
            if buf.ptrNull = false ∧ 0 < buf.bytes.length
            then some (deno_import_buf buf) else st.sendReturnValue
          currentArgs := false }
  else
    match userDataScopeNew st user_data with
    | Except.error p => Except.error p
    | Except.ok (st1, prev) =>
        if st1.recvRegistered = false then
          userDataScopeDrop
            { st1 with
                lastException := some "Deno.core.recv has not been called." }
            user_data prev
        else
          let call := recvImpl (respond_args op_id buf) st1
          let st3 := match call.2 with
            | some e => handle_exception cm call.1 e
            | none => call.1
          userDataScopeDrop st3 user_data prev

/-- Outcome of one invocation of the resolver bridge: a resolved module
handle, an engine exception thrown with the given message (followed by
break, so the bridge returns null), no matching request (the bridge
falls through and returns null), or a Rust panic (unwrap / expect). -/
inductive ResolveOutcome where
  | resolved (m : V8Module)
  | thrown (msg : String)
  | noMatch
  | panicked

/-- The request walk inside resolve_callback: for the first request
whose string equals the specifier, the host resolver resolve_cb_ is
invoked with (user_data_, request, referrer id); an id that is not in
the registry (which includes 0) produces the thrown
Cannot-resolve-module message naming the request and the referrer
name. -/
def resolve_loop (st : DenoIsolateState) (specifier : String)
    (referrerId : Int) (referrerName : String) :
    List String → ResolveOutcome
  | [] => ResolveOutcome.noMatch
  | req :: rest =>
      if req = specifier then
        match st.resolveCb with
        | none => ResolveOutcome.panicked
        | some cb =>
            let id := cb st.userData req referrerId
            match get_module_info st id with
            | none =>
                ResolveOutcome.thrown
                  ("Cannot resolve module \x22" ++ req ++ "\x22 from \x22" ++
                    referrerName ++ "\x22")
            | some info => ResolveOutcome.resolved info.handle
      else resolve_loop st specifier referrerId referrerName rest

/-- Embeds resolve_callback: the referrer module info is looked up by
identity hash (expect panics when absent), then the recorded requests
of the referrer are walked. -/
def resolve_callback (st : DenoIsolateState) (specifier : String)
    (referrer : V8Module) : ResolveOutcome :=
  match get_module_info st referrer.identityHash with
  | none => ResolveOutcome.panicked
  | some referrerInfo =>
      resolve_loop st specifier referrer.identityHash referrerInfo.name
        referrer.requests

/-- Models v8::Module::instantiate_module at the granularity the Rust
code observes it: the engine invokes the resolver bridge on each module
request; the first resolver invocation that throws makes instantiation
fail with that exception caught by the surrounding TryCatch. Returns
the caught exception message, none when nothing was thrown. -/
def engine_instantiate (resolver : String → ResolveOutcome) :
    List String → Option String
  | [] => none
  | req :: rest =>
      match resolver req with
      | ResolveOutcome.thrown msg => some msg
      | _ => engine_instantiate resolver rest

/-- Embeds deno_mod_instantiate: enters a UserDataScope, asserts
resolve_cb_ is not already installed, installs it, and returns early
(dropping the scope) when the id is not registered or the module is
already Errored; otherwise the engine instantiates the module driving
resolve_callback, resolve_cb_ is taken back out, and a caught exception
goes through handle_exception. Note that the two early returns skip the
take call, exactly as the Rust code does. -/
def deno_mod_instantiate (cm : JsValue → V8Message) (st : DenoIsolateState)
    (user_data : Nat) (id : Int) (resolve_cb : Nat → String → Int → Int) :
    Except Panic DenoIsolateState :=
  match userDataScopeNew st user_data with
  | Except.error p => Except.error p
  | Except.ok (st0, prev) =>
      if st0.resolveCb.isSome then Except.error Panic.resolveCbNotNull
      else
        let st1 := { st0 with resolveCb := some resolve_cb }
        match get_module_info st1 id with
        | none => userDataScopeDrop st1 user_data prev
        | some info =>
            if info.handle.status = ModuleStatus.errored then
              userDataScopeDrop st1 user_data prev
            else
              let resolver := fun spec => resolve_callback st1 spec info.handle
              let caught := engine_instantiate resolver info.handle.requests
              let st2 := { st1 with resolveCb := none }
              let st3 := match caught with
                | some msg => handle_exception cm st2 (JsValue.str msg)
                | none => st2
              userDataScopeDrop st3 user_data prev

/-- A fresh isolate state as DenoIsolate::new builds it (no snapshot
concerns modelled): no last exception, empty registry, no resolver
installed, no JS recv registered, null user_data, null current_args,
not terminating. -/
def initialIsolate : DenoIsolateState :=
  { lastException := none
    mods := []
    modsByName := []
    resolveCb := none
    recvRegistered := false
    userData := 0
    currentArgs := false
    sendReturnValue := none
    terminating := false }

/-- A sample engine message, used by concrete witnesses. -/
def sampleMessage : V8Message :=
  { text := "Uncaught Error: boom"
    scriptResourceName := "a.js"
    sourceLine := "throw new Error(1)"
    lineNumber := 1
    startPosition := 0
    endPosition := 1
    errorLevel := 8
    startColumn := 0
    endColumn := 1
    isSharedCrossOrigin := false
    isOpaque := false
    stackTrace := none }

/-- A sample create_message engine behaviour for concrete witnesses. -/
def sampleCreateMessage : JsValue → V8Message := fun _ => sampleMessage

/-- A sample host resolver for concrete witnesses: always unresolved. -/
def sampleResolveCb : Nat → String → Int → Int := fun _ _ _ => 0

/-- A sample host receive callback that does nothing. -/
def sampleRecvCb : Nat → Nat → deno_buf → Option (List Nat) →
    DenoIsolateState → DenoIsolateState := fun _ _ _ _ st => st

/-- A sample JS recv implementation that returns normally. -/
def sampleRecvImpl : List JsArg → DenoIsolateState →
    DenoIsolateState × Option JsValue := fun _ st => (st, none)

/-- A sample non empty borrowed buffer. -/
def sampleBuf : deno_buf := { ptrNull := false, bytes := [1, 2, 3] }

/-- A sample compiled module for concrete witnesses. -/
def sampleModule : V8Module :=
  { identityHash := 9, requests := ["./dep"],
    status := ModuleStatus.uninstantiated }

/-- A sample engine compile behaviour that always succeeds with
sampleModule. -/
def sampleCompileOk : ScriptOrigin → String → Except JsValue V8Module :=
  fun _ _ => Except.ok sampleModule

/-- A sample registered module whose single import cannot be resolved. -/
def sampleRegMod : V8Module :=
  { identityHash := 3, requests := ["./missing"],
    status := ModuleStatus.uninstantiated }

/-- The registry entry for sampleRegMod. -/
def sampleInfo : ModuleInfo :=
  { main := true, name := "main.js", handle := sampleRegMod,
    import_specifiers := ["./missing"] }

/-- A fresh isolate whose registry holds sampleRegMod under id 3. -/
def sampleRegistryState : DenoIsolateState :=
  { initialIsolate with mods := [(3, sampleInfo)] }

/-- C9: a User-Data Scope can be created exactly when the stored
user_data is null or equal to the new value (so nesting with the same
value is idempotent and a different non null value fails the
assertion), and on exit the scope asserts user_data still equals the
value it wrote and restores the previous value. -/
theorem C9_user_data_scope (st : DenoIsolateState) (d : Nat) :
    ((st.userData = 0 ∨ st.userData = d) ↔
      userDataScopeNew st d = Except.ok ({ st with userData := d }, st.userData)) ∧
    (st.userData ≠ 0 → st.userData ≠ d →
      userDataScopeNew st d = Except.error Panic.userDataScopeNew) ∧
    (∀ st1 prev, userDataScopeNew st d = Except.ok (st1, prev) →
      st1.userData = d ∧ prev = st.userData ∧
      userDataScopeDrop st1 d prev = Except.ok { st1 with userData := st.userData }) ∧
    (∀ st2 prev, st2.userData ≠ d →
      userDataScopeDrop st2 d prev = Except.error Panic.userDataScopeDrop) ∧
    (st.userData = d →
      userDataScopeNew st d = Except.ok ({ st with userData := d }, st.userData)) := by
  refine ⟨?_, ?_, ?_, ?_, ?_⟩
  · constructor
    · intro h
      simp [userDataScopeNew, h]
    · intro h
      by_contra hc
      rw [userDataScopeNew, if_neg hc] at h
      exact absurd h (by simp)
  · intro h1 h2
    rw [userDataScopeNew, if_neg (by tauto)]
  · intro st1 prev h
    rw [userDataScopeNew] at h
    by_cases hc : st.userData = 0 ∨ st.userData = d
    · rw [if_pos hc] at h
      injection h with h
      injection h with h1 h2
      subst h1
      subst h2
      refine ⟨rfl, rfl, ?_⟩
      simp [userDataScopeDrop]
    · rw [if_neg hc] at h
      exact absurd h (by simp)
  · intro st2 prev h
    simp [userDataScopeDrop, h]
  · intro h
    simp [userDataScopeNew, h]

/-- C9 witness: on a fresh isolate (null user_data), creating a scope
for user_data 7 succeeds and records the previous null value. -/
theorem C9_user_data_scope_witness :
    (initialIsolate.userData = 0 ∨ initialIsolate.userData = 7) ∧
    userDataScopeNew initialIsolate 7 =
      Except.ok ({ initialIsolate with userData := 7 }, initialIsolate.userData) :=
  ⟨Or.inl rfl, (C9_user_data_scope initialIsolate 7).1.mp (Or.inl rfl)⟩

/-- C10: the asynchronous respond branch passes the u32 op id to the JS
recv callback through the Rust cast `op_id as i32`: values below 2^31
are unchanged and values at or above 2^31 become op_id - 2^32. -/
theorem C10_op_id_reinterpreted (op : Nat) (buf : deno_buf) (h : op < 2 ^ 32) :
    (buf.ptrNull = false →
      respond_args op buf =
        [JsArg.int (toI32 op), JsArg.u8array (deno_import_buf buf)]) ∧
    (op < 2 ^ 31 → toI32 op = (op : Int)) ∧
    (2 ^ 31 ≤ op → toI32 op = (op : Int) - 2 ^ 32) := by
  refine ⟨?_, ?_, ?_⟩
  · intro hb
    simp [respond_args, hb]
  · intro h31
    rw [toI32, Nat.mod_eq_of_lt h, if_pos h31]
  · intro h31
    rw [toI32, Nat.mod_eq_of_lt h, if_neg (by omega)]

/-- C10 witness: op id 2^31 + 2 = 2147483650 fits in u32, is at or
above 2^31, and is delivered as the negative value -2147483646. -/
theorem C10_op_id_reinterpreted_witness :
    (2147483650 < 2 ^ 32) ∧ (2 ^ 31 ≤ 2147483650) ∧
    toI32 2147483650 = (2147483650 : Int) - 2 ^ 32 :=
  ⟨by norm_num, by norm_num,
    (C10_op_id_reinterpreted 2147483650 sampleBuf (by norm_num)).2.2 (by norm_num)⟩

/-- C4: the encoded exception object has exactly the twelve documented
top level keys in order; with a stack trace, frames holds one encoded
frame per stack frame whose keys are line, column, optional
functionName, scriptName (with the <unknown> fallback), isEval,
isConstructor, isWasm; without a stack trace, frames is one synthetic
entry holding scriptResourceName, line and column. -/
theorem C4_exception_json_schema (m : V8Message) (f : StackFrame) :
    ((encode_message_as_object m).map Prod.fst =
      ["message", "scriptResourceName", "sourceLine", "lineNumber",
       "startPosition", "endPosition", "errorLevel", "startColumn",
       "endColumn", "isSharedCrossOrigin", "isOpaque", "frames"]) ∧
    ((encode_stack_frame f).map Prod.fst =
      ["line", "column"] ++
        (match f.functionName with
         | some _ => ["functionName"]
         | none => ([] : List String)) ++
      ["scriptName", "isEval", "isConstructor", "isWasm"]) ∧
    (f.scriptNameOrSourceUrl = none →
      (encode_stack_frame f).lookup "scriptName" = some (JVal.jstr "<unknown>")) ∧
    (∀ frames, m.stackTrace = some frames →
      encode_frames m =
        JVal.jarr (frames.map (fun fr => JVal.jobj (encode_stack_frame fr)))) ∧
    (m.stackTrace = none →
      encode_frames m = JVal.jarr [JVal.jobj
        [("scriptResourceName", JVal.jstr m.scriptResourceName),
         ("line", JVal.jint m.lineNumber),
         ("column", JVal.jint m.startColumn)]]) := by
  refine ⟨?_, ?_, ?_, ?_, ?_⟩
  · simp [encode_message_as_object]
  · cases hf : f.functionName <;> simp [encode_stack_frame, hf]
  · intro h
    cases hf : f.functionName <;> simp [encode_stack_frame, hf, h, List.lookup]
  · intro frames h
    simp [encode_frames, h]
  · intro h
    simp [encode_frames, h]

/-- C4 witness: the sample message has no stack trace, so its frames
value is the single synthetic frame. -/
theorem C4_exception_json_schema_witness :
    sampleMessage.stackTrace = none ∧
    encode_frames sampleMessage = JVal.jarr [JVal.jobj
      [("scriptResourceName", JVal.jstr sampleMessage.scriptResourceName),
       ("line", JVal.jint sampleMessage.lineNumber),
       ("column", JVal.jint sampleMessage.startColumn)]] :=
  ⟨rfl,
    (C4_exception_json_schema sampleMessage
      { lineNumber := 0, column := 0, functionName := none,
        scriptNameOrSourceUrl := none, isEval := false,
        isConstructor := false, isWasm := false }).2.2.2.2 rfl⟩

/-- C5: when the isolate is in execution terminating state,
handle_exception cancels termination, replaces a null or undefined
exception with an Error built from "execution terminated", recursively
re-enters itself to encode it, and re-raises termination; when not
terminating, the exception is encoded to JSON and stored directly in
the last exception slot. -/
theorem C5_termination_path (cm : JsValue → V8Message)
    (st : DenoIsolateState) (exc : JsValue) :
    (st.terminating = true →
      handle_exception cm st exc =
        (let exc2 := if exc.isNullOrUndefined then
            JsValue.errorObj (JsValue.str "execution terminated")
          else exc
         let st1 := handle_exception cm { st with terminating := false } exc2
         { st1 with terminating := true })) ∧
    (st.terminating = true →
      (handle_exception cm st exc).terminating = true ∧
      (handle_exception cm st exc).lastException =
        some (encode_exception_as_json cm
          (if exc.isNullOrUndefined then
              JsValue.errorObj (JsValue.str "execution terminated")
            else exc))) ∧
    (st.terminating = false →
      handle_exception cm st exc =
        { st with lastException := some (encode_exception_as_json cm exc) }) := by
  refine ⟨?_, ?_, ?_⟩
  · intro h
    rw [handle_exception]
    simp [h]
  · intro h
    rw [handle_exception]
    simp only [h]
    rw [handle_exception]
    simp
  · intro h
    rw [handle_exception]
    simp [h]

/-- C5 witness: a terminating isolate reporting a null exception stores
the encoding of the synthesized "execution terminated" error and is
terminating again afterwards. -/
theorem C5_termination_path_witness :
    ({ initialIsolate with terminating := true } : DenoIsolateState).terminating = true ∧
    ((handle_exception sampleCreateMessage
        { initialIsolate with terminating := true } JsValue.nullv).terminating = true ∧
      (handle_exception sampleCreateMessage
        { initialIsolate with terminating := true } JsValue.nullv).lastException =
        some (encode_exception_as_json sampleCreateMessage
          (if (JsValue.nullv).isNullOrUndefined then
              JsValue.errorObj (JsValue.str "execution terminated")
            else JsValue.nullv))) :=
  ⟨rfl,
    (C5_termination_path sampleCreateMessage
      { initialIsolate with terminating := true } JsValue.nullv).2.1 rfl⟩

/-- C1: send asserts current_args_ is null on entry; with a null slot
it records the call info before invoking the host receive callback
(visible in the equation, where recvCb runs on the prologue state whose
slot is set), and the epilogue leaves the slot null whether or not a
synchronous respond consumed it; consequently a second send invoked
from inside the receive callback before any respond, that is on the
prologue state, fails the assertion. -/
theorem C1_send_protocol
    (recvCb : Nat → Nat → deno_buf → Option (List Nat) →
      DenoIsolateState → DenoIsolateState)
    (st : DenoIsolateState) (op_id : Nat) (control : deno_buf)
    (zero_copy : Option (List Nat)) :
    (st.currentArgs = true →
      send recvCb st op_id control zero_copy =
        Except.error Panic.currentArgsNotNull) ∧
    (st.currentArgs = false →
      (send_prologue st).currentArgs = true ∧
      send recvCb st op_id control zero_copy =
        Except.ok (send_epilogue
          (recvCb (send_prologue st).userData op_id control zero_copy
            (send_prologue st)))) ∧
    (∀ st2 : DenoIsolateState, (send_epilogue st2).currentArgs = false) ∧
    (∀ cb2 op2 c2 z2,
      send cb2 (send_prologue st) op2 c2 z2 =
        Except.error Panic.currentArgsNotNull) := by
  refine ⟨?_, ?_, ?_, ?_⟩
  · intro h
    simp [send, h]
  · intro h
    exact ⟨rfl, by simp [send, h]⟩
  · intro st2
    by_cases h2 : st2.currentArgs <;> simp [send_epilogue, h2]
  · intro cb2 op2 c2 z2
    simp [send, send_prologue]

/-- C1 witness: on a fresh isolate the slot is null, the prologue sets
it, and send returns the epilogue of the host callback run on the
prologue state. -/
theorem C1_send_protocol_witness :
    initialIsolate.currentArgs = false ∧
    ((send_prologue initialIsolate).currentArgs = true ∧
      send sampleRecvCb initialIsolate 7 sampleBuf none =
        Except.ok (send_epilogue
          (sampleRecvCb (send_prologue initialIsolate).userData 7 sampleBuf none
            (send_prologue initialIsolate)))) :=
  ⟨rfl, (C1_send_protocol sampleRecvCb initialIsolate 7 sampleBuf none).2.1 rfl⟩

/-- C2: with current_args_ non null, respond is synchronous: a buffer
with non null pointer and positive length is imported and becomes the
return value of the in-flight send, an empty buffer sets no return
value, the slot is cleared to null in every case, and the op id is not
passed back (the result does not depend on it). -/
theorem C2_respond_sync (cm : JsValue → V8Message)
    (recvImpl : List JsArg → DenoIsolateState → DenoIsolateState × Option JsValue)
    (st : DenoIsolateState) (ud op1 op2 : Nat) (buf : deno_buf)
    (h : st.currentArgs = true) :
    (buf.ptrNull = false → 0 < buf.bytes.length →
      deno_respond cm recvImpl st ud op1 buf =
        Except.ok { st with sendReturnValue := some (deno_import_buf buf),
                            currentArgs := false }) ∧
    (buf.ptrNull = true ∨ buf.bytes.length = 0 →
      deno_respond cm recvImpl st ud op1 buf =
        Except.ok { st with currentArgs := false }) ∧
    (∀ st3, deno_respond cm recvImpl st ud op1 buf = Except.ok st3 →
      st3.currentArgs = false) ∧
    deno_respond cm recvImpl st ud op1 buf =
      deno_respond cm recvImpl st ud op2 buf := by
  refine ⟨?_, ?_, ?_, ?_⟩
  · intro h1 h2
    simp [deno_respond, h, h1, h2]
  · intro h1
    rcases h1 with h1 | h1 <;>
      simp [deno_respond, h, h1]
  · intro st3 h3
    rw [deno_respond, if_pos h] at h3
    injection h3 with h3
    subst h3
    rfl
  · simp [deno_respond, h]

/-- C2 witness: on an isolate with a send in flight, responding with
the bytes 1,2,3 sets them as the return value and clears the slot. -/
theorem C2_respond_sync_witness :
    ({ initialIsolate with currentArgs := true } : DenoIsolateState).currentArgs = true ∧
    sampleBuf.ptrNull = false ∧ 0 < sampleBuf.bytes.length ∧
    deno_respond sampleCreateMessage sampleRecvImpl
        { initialIsolate with currentArgs := true } 0 7 sampleBuf =
      Except.ok { initialIsolate with
        sendReturnValue := some (deno_import_buf sampleBuf),
        currentArgs := false } :=
  ⟨rfl, rfl, by norm_num [sampleBuf],
    (C2_respond_sync sampleCreateMessage sampleRecvImpl
      { initialIsolate with currentArgs := true } 0 7 8 sampleBuf rfl).1 rfl
      (by norm_num [sampleBuf])⟩

/-- C3: with current_args_ null, respond is asynchronous inside a
UserDataScope bound to user_data: without a registered JS recv function
the missing-recv string becomes the last exception and nothing is
called; with one, recv is invoked with (op_id as i32, imported buffer)
for a non null buffer pointer and with no arguments for a null one, and
a thrown exception is captured through handle_exception (which, outside
termination, stores the JSON encoding in the last exception slot). -/
theorem C3_respond_async (cm : JsValue → V8Message)
    (recvImpl : List JsArg → DenoIsolateState → DenoIsolateState × Option JsValue)
    (st : DenoIsolateState) (ud op : Nat) (buf : deno_buf)
    (hasync : st.currentArgs = false)
    (hscope : st.userData = 0 ∨ st.userData = ud) :
    (st.recvRegistered = false →
      deno_respond cm recvImpl st ud op buf =
        userDataScopeDrop
          { st with
              userData := ud
              lastException := some "Deno.core.recv has not been called." }
          ud st.userData) ∧
    (st.recvRegistered = true →
      deno_respond cm recvImpl st ud op buf =
        (let call := recvImpl (respond_args op buf) { st with userData := ud }
         let st3 := match call.2 with
           | some e => handle_exception cm call.1 e
           | none => call.1
         userDataScopeDrop st3 ud st.userData)) ∧
    (buf.ptrNull = false →
      respond_args op buf =
        [JsArg.int (toI32 op), JsArg.u8array (deno_import_buf buf)]) ∧
    (buf.ptrNull = true → respond_args op buf = []) ∧
    (∀ st2 e, st2.terminating = false →
      handle_exception cm st2 e =
        { st2 with lastException := some (encode_exception_as_json cm e) }) := by
  refine ⟨?_, ?_, ?_, ?_, ?_⟩
  · intro hr
    rw [deno_respond, if_neg (by simp [hasync]), userDataScopeNew, if_pos hscope]
    simp [hr]
  · intro hr
    rw [deno_respond, if_neg (by simp [hasync]), userDataScopeNew, if_pos hscope]
    simp [hr]
  · intro hb
    simp [respond_args, hb]
  · intro hb
    simp [respond_args, hb]
  · intro st2 e h2
    rw [handle_exception]
    simp [h2]

/-- C3 witness: with no recv registered, an asynchronous respond on a
fresh isolate records the missing-recv message as the last
exception. -/
theorem C3_respond_async_witness :
    initialIsolate.currentArgs = false ∧
    (initialIsolate.userData = 0 ∨ initialIsolate.userData = 7) ∧
    initialIsolate.recvRegistered = false ∧
    deno_respond sampleCreateMessage sampleRecvImpl initialIsolate 7 42 sampleBuf =
      userDataScopeDrop
        { initialIsolate with
            userData := 7
            lastException := some "Deno.core.recv has not been called." }
        7 initialIsolate.userData :=
  ⟨rfl, Or.inl rfl, rfl,
    (C3_respond_async sampleCreateMessage sampleRecvImpl initialIsolate 7 42
      sampleBuf rfl (Or.inl rfl)).1 rfl⟩

/-- Helper: the request walk resolves against the first request equal
to the specifier, so membership determines the outcome. -/
theorem resolve_loop_of_mem (st : DenoIsolateState) (spec : String)
    (rid : Int) (rname : String) (reqs : List String) (hmem : spec ∈ reqs) :
    resolve_loop st spec rid rname reqs =
      (match st.resolveCb with
       | none => ResolveOutcome.panicked
       | some cb =>
           match get_module_info st (cb st.userData spec rid) with
           | none =>
               ResolveOutcome.thrown
                 ("Cannot resolve module \x22" ++ spec ++ "\x22 from \x22" ++
                   rname ++ "\x22")
           | some info => ResolveOutcome.resolved info.handle) := by
  induction reqs with
  | nil => cases hmem
  | cons a rest ih =>
      by_cases ha : a = spec
      · subst ha
        simp [resolve_loop]
      · have hrest : spec ∈ rest := by
          cases hmem with
          | head => exact absurd rfl ha
          | tail _ h => exact h
        rw [resolve_loop, if_neg ha]
        exact ih hrest

/-- C6: mod_new compiles the source against the origin built by
module_origin, whose is_module flag is true; a caught compile exception
goes through handle_exception and 0 is returned; on success the module
identity hash is returned as the id and the ordered import specifiers
are recorded, retrievable through deno_mod_imports_len and
deno_mod_imports_get. -/
theorem C6_mod_new
    (compile : ScriptOrigin → String → Except JsValue V8Module)
    (cm : JsValue → V8Message) (st : DenoIsolateState) (main : Bool)
    (name source : String) :
    ((module_origin name).isModule = true) ∧
    (∀ exc, compile (module_origin name) source = Except.error exc →
      deno_mod_new compile cm st main name source = (handle_exception cm st exc, 0)) ∧
    (∀ m, compile (module_origin name) source = Except.ok m →
      (deno_mod_new compile cm st main name source).2 = m.identityHash ∧
      (m.identityHash ≠ 0 →
        deno_mod_imports_len (deno_mod_new compile cm st main name source).1
            m.identityHash = some m.requests.length ∧
        (∀ i, deno_mod_imports_get (deno_mod_new compile cm st main name source).1
            m.identityHash i = m.requests.get? i))) := by
  refine ⟨rfl, ?_, ?_⟩
  · intro exc h
    simp [deno_mod_new, register_module, h]
  · intro m h
    refine ⟨by simp [deno_mod_new, register_module, h], ?_⟩
    intro hid
    have hlook :
        get_module_info (deno_mod_new compile cm st main name source).1
          m.identityHash =
        some { main := main, name := name, handle := m,
               import_specifiers := m.requests } := by
      simp [deno_mod_new, register_module, h, get_module_info, hid,
        assocInsertMod, List.lookup]
    exact ⟨by simp [deno_mod_imports_len, hlook],
      fun i => by simp [deno_mod_imports_get, hlook]⟩

/-- C6 witness: a successful compile producing identity hash 9 and the
single request ./dep is registered with that id and retrievable
specifier list. -/
theorem C6_mod_new_witness :
    (sampleCompileOk (module_origin "main.js") "import x" =
      Except.ok sampleModule) ∧
    (sampleModule.identityHash ≠ 0) ∧
    ((deno_mod_new sampleCompileOk sampleCreateMessage initialIsolate true
        "main.js" "import x").2 = sampleModule.identityHash ∧
      (sampleModule.identityHash ≠ 0 →
        deno_mod_imports_len
            (deno_mod_new sampleCompileOk sampleCreateMessage initialIsolate true
              "main.js" "import x").1 sampleModule.identityHash =
          some sampleModule.requests.length ∧
        (∀ i, deno_mod_imports_get
            (deno_mod_new sampleCompileOk sampleCreateMessage initialIsolate true
              "main.js" "import x").1 sampleModule.identityHash i =
          sampleModule.requests.get? i))) :=
  ⟨rfl, by norm_num [sampleModule],
    (C6_mod_new sampleCompileOk sampleCreateMessage initialIsolate true
      "main.js" "import x").2.2 sampleModule rfl⟩

/-- C7: when the resolver bridge is invoked with a specifier matching a
recorded import of a registered referrer, it calls the host resolver;
an unregistered returned id (0 included) makes it throw the
Cannot-resolve-module exception naming the specifier and the referrer,
while a registered id resolves to that module handle; and an
instantiation whose resolver throws leaves the encoded exception in the
last exception slot when deno_mod_instantiate returns. -/
theorem C7_resolution (st : DenoIsolateState) (spec : String)
    (referrer : V8Module) (refInfo : ModuleInfo)
    (cb : Nat → String → Int → Int) :
    (get_module_info st referrer.identityHash = some refInfo →
     st.resolveCb = some cb →
     spec ∈ referrer.requests →
       ((get_module_info st (cb st.userData spec referrer.identityHash) = none →
          resolve_callback st spec referrer =
            ResolveOutcome.thrown
              ("Cannot resolve module \x22" ++ spec ++ "\x22 from \x22" ++
                refInfo.name ++ "\x22")) ∧
        (∀ info,
          get_module_info st (cb st.userData spec referrer.identityHash) =
              some info →
          resolve_callback st spec referrer =
            ResolveOutcome.resolved info.handle))) ∧
    (∀ (cm : JsValue → V8Message) (ud : Nat) (id : Int) (info : ModuleInfo),
      st.resolveCb = none → st.userData = 0 → st.terminating = false →
      get_module_info st id = some info →
      info.handle.status ≠ ModuleStatus.errored →
      info.handle.identityHash = id →
      info.handle.requests = [spec] →
      get_module_info st (cb ud spec id) = none →
      ∃ stOut, deno_mod_instantiate cm st ud id cb = Except.ok stOut ∧
        stOut.lastException =
          some (encode_exception_as_json cm (JsValue.str
            ("Cannot resolve module \x22" ++ spec ++ "\x22 from \x22" ++
              info.name ++ "\x22")))) := by
  constructor
  · intro href hcb hmem
    constructor
    · intro hnone
      rw [resolve_callback, href]
      dsimp only
      rw [resolve_loop_of_mem st spec
        referrer.identityHash refInfo.name referrer.requests hmem, hcb]
      dsimp only
      rw [hnone]
    · intro info hsome
      rw [resolve_callback, href]
      dsimp only
      rw [resolve_loop_of_mem st spec
        referrer.identityHash refInfo.name referrer.requests hmem, hcb]
      dsimp only
      rw [hsome]
  · intro cm ud id info hnocb hud hterm hinfo hstatus hhash hreqs hres
    have hinfo1 :
        get_module_info { st with userData := ud, resolveCb := some cb } id =
          some info := by
      simpa [get_module_info] using hinfo
    have hres1 :
        get_module_info { st with userData := ud, resolveCb := some cb }
          (cb ud spec id) = none := by
      simpa [get_module_info] using hres
    have hrc :
        resolve_callback { st with userData := ud, resolveCb := some cb } spec
            info.handle =
          ResolveOutcome.thrown
            ("Cannot resolve module \x22" ++ spec ++ "\x22 from \x22" ++
              info.name ++ "\x22") := by
      rw [resolve_callback, hhash, hinfo1]
      dsimp only
      rw [resolve_loop_of_mem _ spec id info.name info.handle.requests
        (by rw [hreqs]; exact List.mem_singleton.mpr rfl)]
      dsimp only
      rw [hres1]
    have hhe : ∀ (st2 : DenoIsolateState) (e : JsValue),
        st2.terminating = false →
        handle_exception cm st2 e =
          { st2 with lastException := some (encode_exception_as_json cm e) } := by
      intro st2 e h2
      rw [handle_exception]
      simp [h2]
    rw [deno_mod_instantiate, userDataScopeNew, if_pos (Or.inl hud)]
    dsimp only
    simp only [hnocb, Option.isSome_none, Bool.false_eq_true, if_false,
      hinfo1, hreqs]
    rw [if_neg hstatus]
    rw [engine_instantiate.eq_def]
    dsimp only
    rw [hrc]
    dsimp only
    simp only [hhe, hterm]
    simp [userDataScopeDrop]

/-- C7 witness: a registered module importing ./missing whose resolver
returns 0 ends, after deno_mod_instantiate, with the encoded
Cannot-resolve-module exception as the last exception. -/
theorem C7_resolution_witness :
    sampleRegistryState.resolveCb = none ∧
    sampleRegistryState.userData = 0 ∧
    sampleRegistryState.terminating = false ∧
    get_module_info sampleRegistryState 3 = some sampleInfo ∧
    sampleInfo.handle.status ≠ ModuleStatus.errored ∧
    sampleInfo.handle.identityHash = 3 ∧
    sampleInfo.handle.requests = ["./missing"] ∧
    get_module_info sampleRegistryState (sampleResolveCb 7 "./missing" 3) = none ∧
    (∃ stOut,
      deno_mod_instantiate sampleCreateMessage sampleRegistryState 7 3
          sampleResolveCb = Except.ok stOut ∧
      stOut.lastException =
        some (encode_exception_as_json sampleCreateMessage (JsValue.str
          ("Cannot resolve module \x22" ++ "./missing" ++ "\x22 from \x22" ++
            sampleInfo.name ++ "\x22")))) :=
  ⟨rfl, rfl, rfl, rfl, by decide, rfl, rfl, rfl,
    (C7_resolution sampleRegistryState "./missing" sampleRegMod sampleInfo
        sampleResolveCb).2 sampleCreateMessage 7 3 sampleInfo
      rfl rfl rfl rfl (by decide) rfl rfl rfl⟩

/-- C8: evaluating deno_mod_instantiate at a concrete failing input: on
a fresh isolate, instantiating an id that is not in the registry is
meant to be a no-op, yet it returns with resolve_cb_ still installed,
so the very next deno_mod_instantiate call fails the
not-already-installed assertion. -/
theorem C8_resolver_left_installed :
    ∃ st1, deno_mod_instantiate sampleCreateMessage initialIsolate 0 5
        sampleResolveCb = Except.ok st1 ∧
      st1.resolveCb.isSome = true ∧
      deno_mod_instantiate sampleCreateMessage st1 0 5 sampleResolveCb =
        Except.error Panic.resolveCbNotNull :=
  ⟨_, rfl, rfl, rfl⟩
